import Mathlib

/-!
Verification of the label-sleuth frontend state logic.

This file gives a shallow embedding of the state-container hooks of the
label-sleuth browser UI:

* `useTogglePanel` (sidebar panel activation): seven boolean visibility
  flags, one activation operation per panel.  Each activation operation is
  a sequence of React `setState` calls; within a single event handler every
  `set...(!toggle...)` call reads the closure value of the state (the value
  at the start of the handler), and for a flag set twice the last setter
  wins.  The Lean functions below replay the setter sequences of the source
  in order against the pre-call state, which is exactly React's batching
  semantics for these handlers.
* `useSearchElement` (search result click and scroll-into-view): modelled
  as an event trace emitted by the click handler and by its scroll effect,
  together with a replay function for the pieces of state the events write.
* `useLoadDoc` (dataset upload): modelled as an event trace.
* the category-name validator exercised by `test_upperbar.js`.
-/

/-- State of the seven panel visibility flags of `useTogglePanel`. -/
structure PanelToggles where
  toggleSearchPanel : Bool
  toggleRCMDPanel : Bool
  togglePosPredPanel : Bool
  togglePosElemPanel : Bool
  toggleDisagreeElemPanel : Bool
  toggleSuspiciousElemPanel : Bool
  toggleContrElemPanel : Bool
deriving DecidableEq, Repr

/-- Initial state: every `useState(false)` flag of `useTogglePanel`. -/
def initPanelToggles : PanelToggles :=
  ⟨false, false, false, false, false, false, false⟩

/-- React setter `setToggleSearchPanel`. -/
def setToggleSearchPanel (b : Bool) (s : PanelToggles) : PanelToggles :=
  { s with toggleSearchPanel := b }

/-- React setter `setToggleRCMDPanel`. -/
def setToggleRCMDPanel (b : Bool) (s : PanelToggles) : PanelToggles :=
  { s with toggleRCMDPanel := b }

/-- React setter `setTogglePosPredPanel`. -/
def setTogglePosPredPanel (b : Bool) (s : PanelToggles) : PanelToggles :=
  { s with togglePosPredPanel := b }

/-- React setter `setTogglePosElemPanel`. -/
def setTogglePosElemPanel (b : Bool) (s : PanelToggles) : PanelToggles :=
  { s with togglePosElemPanel := b }

/-- React setter `setToggleDisagreeElemPanel`. -/
def setToggleDisagreeElemPanel (b : Bool) (s : PanelToggles) : PanelToggles :=
  { s with toggleDisagreeElemPanel := b }

/-- React setter `setToggleSuspiciousElemPanel`. -/
def setToggleSuspiciousElemPanel (b : Bool) (s : PanelToggles) : PanelToggles :=
  { s with toggleSuspiciousElemPanel := b }

/-- React setter `setToggleContrElemPanel`. -/
def setToggleContrElemPanel (b : Bool) (s : PanelToggles) : PanelToggles :=
  { s with toggleContrElemPanel := b }

/-- `activateSearchPanel`: setter sequence of the source, in order; the
negated argument reads the pre-call state `s` (React closure value). -/
def activateSearchPanel (s : PanelToggles) : PanelToggles :=
  s |> setToggleSearchPanel (!s.toggleSearchPanel)
    |> setTogglePosPredPanel false
    |> setToggleRCMDPanel false
    |> setTogglePosElemPanel false
    |> setToggleDisagreeElemPanel false
    |> setToggleSuspiciousElemPanel false
    |> setToggleContrElemPanel false

/-- `activateRecToLabelPanel`: setter sequence of the source, in order. -/
def activateRecToLabelPanel (s : PanelToggles) : PanelToggles :=
  s |> setToggleSearchPanel false
    |> setTogglePosPredPanel false
    |> setTogglePosElemPanel false
    |> setToggleDisagreeElemPanel false
    |> setToggleSuspiciousElemPanel false
    |> setToggleContrElemPanel false
    |> setToggleRCMDPanel (!s.toggleRCMDPanel)

/-- `activatePosPredLabelPanel`: setter sequence of the source, in order. -/
def activatePosPredLabelPanel (s : PanelToggles) : PanelToggles :=
  s |> setToggleSearchPanel false
    |> setToggleRCMDPanel false
    |> setTogglePosElemPanel false
    |> setToggleDisagreeElemPanel false
    |> setToggleSuspiciousElemPanel false
    |> setToggleContrElemPanel false
    |> setTogglePosPredPanel (!s.togglePosPredPanel)

/-- `activatePosElemLabelPanel`: setter sequence of the source, in order
(the source first sets `togglePosElemPanel` to false and later overrides it
with the toggled closure value; the last setter wins). -/
def activatePosElemLabelPanel (s : PanelToggles) : PanelToggles :=
  s |> setToggleSearchPanel false
    |> setToggleRCMDPanel false
    |> setTogglePosElemPanel false
    |> setTogglePosPredPanel false
    |> setToggleDisagreeElemPanel false
    |> setToggleSuspiciousElemPanel false
    |> setToggleContrElemPanel false
    |> setTogglePosElemPanel (!s.togglePosElemPanel)

/-- `activateDisagreeElemLabelPanel`: setter sequence of the source, in
order (`setTogglePosElemPanel false` appears twice, as in the source). -/
def activateDisagreeElemLabelPanel (s : PanelToggles) : PanelToggles :=
  s |> setToggleSearchPanel false
    |> setToggleRCMDPanel false
    |> setTogglePosElemPanel false
    |> setTogglePosPredPanel false
    |> setTogglePosElemPanel false
    |> setToggleSuspiciousElemPanel false
    |> setToggleContrElemPanel false
    |> setToggleDisagreeElemPanel (!s.toggleDisagreeElemPanel)

/-- `activateSuspiciousElemLabelPanel`: setter sequence of the source, in
order. -/
def activateSuspiciousElemLabelPanel (s : PanelToggles) : PanelToggles :=
  s |> setToggleSearchPanel false
    |> setToggleRCMDPanel false
    |> setTogglePosElemPanel false
    |> setTogglePosPredPanel false
    |> setTogglePosElemPanel false
    |> setToggleDisagreeElemPanel false
    |> setToggleContrElemPanel false
    |> setToggleSuspiciousElemPanel (!s.toggleSuspiciousElemPanel)

/-- `activateContrElemLabelPanel`: setter sequence of the source, in
order. -/
def activateContrElemLabelPanel (s : PanelToggles) : PanelToggles :=
  s |> setToggleSearchPanel false
    |> setToggleRCMDPanel false
    |> setTogglePosElemPanel false
    |> setTogglePosPredPanel false
    |> setTogglePosElemPanel false
    |> setToggleDisagreeElemPanel false
    |> setToggleSuspiciousElemPanel false
    |> setToggleContrElemPanel (!s.toggleContrElemPanel)

/-- The seven sidebar panels of `useTogglePanel`. -/
inductive Panel where
  | search
  | rcmd
  | posPred
  | posElem
  | disagreeElem
  | suspiciousElem
  | contrElem
deriving DecidableEq, Repr

/-- Dispatch a panel identifier to its activation operation. -/
def activatePanel : Panel → PanelToggles → PanelToggles
  | .search => activateSearchPanel
  | .rcmd => activateRecToLabelPanel
  | .posPred => activatePosPredLabelPanel
  | .posElem => activatePosElemLabelPanel
  | .disagreeElem => activateDisagreeElemLabelPanel
  | .suspiciousElem => activateSuspiciousElemLabelPanel
  | .contrElem => activateContrElemLabelPanel

/-- The visibility flag owned by a panel. -/
def ownFlag : Panel → PanelToggles → Bool
  | .search, s => s.toggleSearchPanel
  | .rcmd, s => s.toggleRCMDPanel
  | .posPred, s => s.togglePosPredPanel
  | .posElem, s => s.togglePosElemPanel
  | .disagreeElem, s => s.toggleDisagreeElemPanel
  | .suspiciousElem, s => s.toggleSuspiciousElemPanel
  | .contrElem, s => s.toggleContrElemPanel

/-- All seven panels. -/
def allPanels : List Panel :=
  [.search, .rcmd, .posPred, .posElem, .disagreeElem, .suspiciousElem, .contrElem]

/-- The seven visibility flags as a list. -/
def panelFlags (s : PanelToggles) : List Bool :=
  [s.toggleSearchPanel, s.toggleRCMDPanel, s.togglePosPredPanel,
   s.togglePosElemPanel, s.toggleDisagreeElemPanel,
   s.toggleSuspiciousElemPanel, s.toggleContrElemPanel]

/-- Number of visibility flags currently true. -/
def countOpen (s : PanelToggles) : Nat :=
  (panelFlags s).count true

/-- True when every visibility flag is false. -/
def allClosed (s : PanelToggles) : Bool :=
  (panelFlags s).all (fun b => !b)

/-- True when every panel other than `p` has its flag false. -/
def othersClosed (p : Panel) (s : PanelToggles) : Bool :=
  (allPanels.filter (fun q => q ≠ p)).all (fun q => !(ownFlag q s))

/-- The `useEffect` of `useTogglePanel` that derives the host container's
open flag: `setOpen(true)` when some visibility flag is true, else
`setOpen(false)`. -/
def openEffect (s : PanelToggles) : Bool :=
  if s.toggleSearchPanel || s.toggleRCMDPanel || s.togglePosPredPanel ||
     s.togglePosElemPanel || s.toggleDisagreeElemPanel ||
     s.toggleSuspiciousElemPanel || s.toggleContrElemPanel then
    true
  else
    false

/-- The mount `useEffect` of `useTogglePanel`: if the queued-for-labeling
count is zero it calls `activateSearchPanel`, otherwise
`activateRecToLabelPanel`. -/
def mountPanelEffect (elementsToLabelLength : Nat) (s : PanelToggles) :
    PanelToggles :=
  if elementsToLabelLength = 0 then activateSearchPanel s
  else activateRecToLabelPanel s

/-- React `useEffect` dependency semantics for a one-element dependency
array: given the dependency's value at each render (`deps`), the effect
runs after the first render and after every render whose dependency value
differs from the previous render's value. -/
def effectRunsAt (deps : List Nat) : Nat → Bool
  | 0 => !deps.isEmpty
  | i + 1 =>
    match deps.get? (i + 1), deps.get? i with
    | some a, some b => a != b
    | _, _ => false

/-- Helper for `jsLastIndexOf`: index of the last occurrence of `c`, or
`-1` when absent, scanning from the front. -/
def lastIdxAux (c : Char) : List Char → Int
  | [] => -1
  | x :: xs =>
    let r := lastIdxAux c xs
    if r = -1 then (if x = c then 0 else -1) else r + 1

/-- JavaScript `String.prototype.lastIndexOf` for a single character:
the index of the last occurrence, or `-1` when the character is absent. -/
def jsLastIndexOf (s : List Char) (c : Char) : Int :=
  lastIdxAux c s

/-- JavaScript `String.prototype.slice` index normalization: a negative
index counts from the end (clamped at 0), a nonnegative one is clamped at
the length. -/
def jsSliceIndex (len : Nat) (i : Int) : Nat :=
  if i < 0 then ((len : Int) + i).toNat else min i.toNat len

/-- JavaScript `String.prototype.slice(b, e)` on a string viewed as a char
list: characters from the normalized begin index (inclusive) to the
normalized end index (exclusive). -/
def jsSlice (s : List Char) (b e : Int) : List Char :=
  (s.take (jsSliceIndex s.length e)).drop (jsSliceIndex s.length b)

/-- JavaScript `String.prototype.slice(b)` (one-argument form). -/
def jsSliceFrom (s : List Char) (b : Int) : List Char :=
  jsSlice s b (s.length : Int)

/-- The identifier parsing of `handleSearchPanelClick`: locate the last
separator with `lastIndexOf`, the document id is `slice(0, lastIndex)` and
the element index is `slice(lastIndex + 1)`. -/
def parseSearchId (id : List Char) : List Char × List Char :=
  (jsSlice id 0 (jsLastIndexOf id '-'), jsSliceFrom id (jsLastIndexOf id '-' + 1))

/-- Events dispatched or performed by `useSearchElement` and `useLoadDoc`
flows: Redux dispatches, DOM scroll attempts and the async document fetch
request/completion. `scroll eid` stands for
`scrollIntoElementView(document.getElementById(eid))`. -/
inductive WorkspaceEvent where
  | setSearchedIndex (i : List Char)
  | setIsSearchActive (b : Bool)
  | scroll (elemId : List Char)
  | setIsDocLoaded (b : Bool)
  | fetchStart (docid : List Char)
  | fetchComplete (docid : List Char)
  | setFocusedState (i : List Char)
deriving DecidableEq, Repr

/-- The pieces of state written by the events of `useSearchElement`: the
local pending-scroll flag (named `isIsSearchActive` in the source), the
store's `isDocLoaded`, `focusedIndex` and `searchedIndex`. -/
structure SearchState where
  isIsSearchActive : Bool
  isDocLoaded : Bool
  focusedIndex : List Char
  searchedIndex : List Char
deriving DecidableEq, Repr

/-- Apply one event to the search-related state. -/
def applyEvent (st : SearchState) : WorkspaceEvent → SearchState
  | .setSearchedIndex i => { st with searchedIndex := i }
  | .setIsSearchActive b => { st with isIsSearchActive := b }
  | .setIsDocLoaded b => { st with isDocLoaded := b }
  | .setFocusedState i => { st with focusedIndex := i }
  | .scroll _ => st
  | .fetchStart _ => st
  | .fetchComplete _ => st

/-- Replay a trace of events over a starting state. -/
def replay (st : SearchState) (tr : List WorkspaceEvent) : SearchState :=
  tr.foldl applyEvent st

/-- Event trace of `handleSearchPanelClick` for a click whose composite
identifier is `id` while document `curDocName` is loaded, following the
source line by line: record the searched index, arm the pending scroll,
attempt an immediate scroll to element `'L' + index`, then either fetch the
other document (and on completion focus the element and mark the document
loaded) or focus the element directly. The async completion callback is
placed at its resolution point, directly after `fetchComplete`. -/
def handleSearchPanelClickTrace (id curDocName : List Char) :
    List WorkspaceEvent :=
  [.setSearchedIndex (parseSearchId id).2,
   .setIsSearchActive true,
   .scroll ('L' :: (parseSearchId id).2)] ++
    (if (parseSearchId id).1 ≠ curDocName then
      [.setIsDocLoaded false,
       .fetchStart (parseSearchId id).1,
       .fetchComplete (parseSearchId id).1,
       .setFocusedState (parseSearchId id).2,
       .setIsDocLoaded true]
    else
      [.setFocusedState (parseSearchId id).2])

/-- Event trace of the scroll `useEffect` of `useSearchElement`: when the
pending-scroll flag is armed and the document is loaded, scroll to
`'L' + focusedIndex` when a category is selected and to
`'L' + searchedIndex` otherwise, then disarm the pending scroll. -/
def searchScrollEffect (st : SearchState) (curCategory : Option (List Char)) :
    List WorkspaceEvent :=
  if st.isIsSearchActive && st.isDocLoaded then
    match curCategory with
    | some _ => [.scroll ('L' :: st.focusedIndex), .setIsSearchActive false]
    | none => [.scroll ('L' :: st.searchedIndex), .setIsSearchActive false]
  else []

/-- Full trace of a search-result click followed by the run of the scroll
effect over the state the click produced. -/
def clickThenEffectTrace (st0 : SearchState) (id curDocName : List Char)
    (curCategory : Option (List Char)) : List WorkspaceEvent :=
  handleSearchPanelClickTrace id curDocName ++
    searchScrollEffect (replay st0 (handleSearchPanelClickTrace id curDocName))
      curCategory

/-- Value of the document-loaded flag after one event. -/
def docLoadedStep (b : Bool) : WorkspaceEvent → Bool
  | .setIsDocLoaded v => v
  | _ => b

/-- Values of the document-loaded flag along a trace: entry `k` is the
value in effect when event `k` fires, and the final entry is the value
after the whole trace. -/
def docLoadedHistory (b : Bool) : List WorkspaceEvent → List Bool
  | [] => [b]
  | e :: tr => b :: docLoadedHistory (docLoadedStep b e) tr

/-- Whether an event is a scroll attempt. -/
def isScroll : WorkspaceEvent → Bool
  | .scroll _ => true
  | _ => false

/-- Whether an event is a focused-index update. -/
def isSetFocused : WorkspaceEvent → Bool
  | .setFocusedState _ => true
  | _ => false

/-- Whether an event is a fetch completion. -/
def isFetchComplete : WorkspaceEvent → Bool
  | .fetchComplete _ => true
  | _ => false

/-- Whether an event sets the document-loaded flag to true. -/
def isSetDocLoadedTrue : WorkspaceEvent → Bool
  | .setIsDocLoaded b => b
  | _ => false

/-- True when no scroll event fires while the document-loaded flag is
false. -/
def noScrollWhileUnloaded (b : Bool) (tr : List WorkspaceEvent) : Bool :=
  (tr.zip (docLoadedHistory b tr)).all (fun eb => !(isScroll eb.1) || eb.2)

/-- The scheduling property claimed of the scroll: every scroll event
happens only after the document-loaded flag has returned to true, that is,
after a set-true of the flag that itself follows a set-false. -/
def scrollOnlyAfterReload (tr : List WorkspaceEvent) : Prop :=
  ∀ k < tr.length, isScroll (tr.getD k (.setIsSearchActive false)) = true →
    ∃ q < k, tr.getD q (.setIsSearchActive false) = .setIsDocLoaded true ∧
      ∃ r < q, tr.getD r (.setIsSearchActive false) = .setIsDocLoaded false

/-- Concrete clicked identifier used in counterexamples and witnesses. -/
def exSearchId : List Char := ['d', 'o', 'c', '1', '-', '3']

/-- Concrete currently-loaded document name, distinct from the clicked
identifier's document. -/
def exCurDoc : List Char := ['d', 'o', 'c', '2']

/-- Concrete starting state with the document-loaded flag true. -/
def exInitSearchState : SearchState := ⟨false, true, [], []⟩

/-- Events of the `handleLoadDoc` flow of `useLoadDoc`: toast
notifications, the upload request and its completion, and the two actions
of the completion callback. -/
inductive LoadDocEvent where
  | notify (msg : List Char)
  | uploadStart
  | uploadComplete
  | resetDatasetName
  | refreshDatasets
deriving DecidableEq, Repr

/-- Toast message of the missing-required-fields branch. -/
def msgFillRequired : List Char :=
  "Please fill out all the required fields!".data

/-- Toast message of the upload completion callback. -/
def msgDatasetCreated : List Char :=
  "The new dataset has been created".data

/-- Event trace of `handleLoadDoc`: with a missing dataset name (empty
string is falsy) or missing file it only notifies; otherwise it uploads and
the completion callback resets the dataset-name field, refreshes the
dataset list and notifies. -/
def handleLoadDoc (datasetName : List Char) (file : Option Unit) :
    List LoadDocEvent :=
  if datasetName.isEmpty || file.isNone then
    [.notify msgFillRequired]
  else
    [.uploadStart, .uploadComplete, .resetDatasetName, .refreshDatasets,
     .notify msgDatasetCreated]

/-- Modelled from the spec: the category-name validator component is not
among the provided sources (only its test `test_upperbar.js` is); per the
spec the allowed characters are ASCII English letters, digits, underscores
and spaces. -/
def allowedCategoryNameChar (c : Char) : Bool :=
  ('a' ≤ c && c ≤ 'z') || ('A' ≤ c && c ≤ 'Z') || c.isDigit ||
    c = '_' || c = ' '

/-- Modelled from the spec: the client-side category name validator accepts
exactly the non-empty names all of whose characters are allowed. -/
def validCategoryName (name : List Char) : Bool :=
  !name.isEmpty && name.all allowedCategoryNameChar

/-- Modelled from the spec: the Create control of the category modal is
enabled exactly when the entered name passes the validator. -/
def createControlEnabled (name : List Char) : Bool :=
  validCategoryName name

/-- The validation message shown for a rejected non-empty name. -/
def categoryValidationMessage : List Char :=
  "Name may only contain English characters, digits, underscores and spaces".data

/-- Modelled from the spec: the error message displayed under the name
field: the validation message for a non-empty invalid name, nothing
otherwise. -/
def categoryNameError (name : List Char) : Option (List Char) :=
  if !name.isEmpty && !(name.all allowedCategoryNameChar) then
    some categoryValidationMessage
  else
    none

/-- The category name typed in the validation test. -/
def tCategoryName : List Char := "test_category".data

/-- C1: every panel activation leaves either exactly one flag true (the
activated panel's own flag) or all seven false; the all-false outcome
happens exactly when the activated panel's flag was already true, and every
other panel's flag ends up false in all cases. -/
theorem useTogglePanel_activation_exclusive :
    ∀ (p : Panel) (a b c d e f g : Bool),
      ((countOpen (activatePanel p ⟨a, b, c, d, e, f, g⟩) = 1 ∧
          ownFlag p (activatePanel p ⟨a, b, c, d, e, f, g⟩) = true) ∨
        allClosed (activatePanel p ⟨a, b, c, d, e, f, g⟩) = true) ∧
      (allClosed (activatePanel p ⟨a, b, c, d, e, f, g⟩) = true ↔
        ownFlag p ⟨a, b, c, d, e, f, g⟩ = true) ∧
      othersClosed p (activatePanel p ⟨a, b, c, d, e, f, g⟩) = true := by
  intro p
  cases p <;> decide

/-- C8: the open-flag effect of `useTogglePanel` computes exactly the
disjunction of the seven visibility flags; it is false exactly when all
flags are false, and after any activation it equals the activated panel's
own flag. -/
theorem useTogglePanel_openEffect_or :
    ∀ (p : Panel) (a b c d e f g : Bool),
      openEffect ⟨a, b, c, d, e, f, g⟩ = (a || b || c || d || e || f || g) ∧
      (openEffect ⟨a, b, c, d, e, f, g⟩ = false ↔
        allClosed ⟨a, b, c, d, e, f, g⟩ = true) ∧
      openEffect (activatePanel p ⟨a, b, c, d, e, f, g⟩) =
        ownFlag p (activatePanel p ⟨a, b, c, d, e, f, g⟩) := by
  intro p
  cases p <;> decide

/-- C3 (counterexample): the mount effect of `useTogglePanel` is keyed on
the queue length, so it is not a one-time effect: with dependency values 0
then 1 on consecutive renders it runs again after mount (render 1). -/
theorem mountPanelEffect_reruns_counterexample :
    0 < 1 ∧ effectRunsAt [0, 1] 1 = true := by
  decide

/-- C3 (amended): on initial mount the effect runs and, starting from the
all-closed initial state, activates exactly the Search panel when the
queued-for-labeling count is zero and exactly the Recommendation panel
otherwise; the effect is keyed on the queue length and re-runs after any
render whose queue length differs from the previous render's. -/
theorem mountPanelEffect_amended (n : Nat) :
    (mountPanelEffect n initPanelToggles).toggleSearchPanel = decide (n = 0) ∧
    (mountPanelEffect n initPanelToggles).toggleRCMDPanel = !decide (n = 0) ∧
    othersClosed .search (mountPanelEffect 0 initPanelToggles) = true ∧
    othersClosed .rcmd (mountPanelEffect (n + 1) initPanelToggles) = true ∧
    effectRunsAt [n] 0 = true ∧
    (∀ a b : Nat, effectRunsAt [a, b] 1 = (a != b)) := by
  by_cases h : n = 0 <;>
    simp [h, mountPanelEffect, initPanelToggles, activateSearchPanel,
      activateRecToLabelPanel, setToggleSearchPanel, setToggleRCMDPanel,
      setTogglePosPredPanel, setTogglePosElemPanel, setToggleDisagreeElemPanel,
      setToggleSuspiciousElemPanel, setToggleContrElemPanel, othersClosed,
      allPanels, ownFlag, effectRunsAt, List.get?, bne] <;>
  exact fun a b => eq_comm

theorem lastIdxAux_of_not_mem (c : Char) (l : List Char) (h : c ∉ l) :
    lastIdxAux c l = -1 := by
  induction l with
  | nil => rfl
  | cons x xs ih =>
    simp only [List.mem_cons, not_or] at h
    simp [lastIdxAux, ih h.2, Ne.symm h.1]

theorem lastIdxAux_nonneg_of_mem (c : Char) (l : List Char) (h : c ∈ l) :
    0 ≤ lastIdxAux c l := by
  induction l with
  | nil => simp at h
  | cons x xs ih =>
    by_cases hx : c ∈ xs
    · have := ih hx
      simp only [lastIdxAux]
      split
      · omega
      · omega
    · have hxc : x = c := by
        rcases List.mem_cons.mp h with h1 | h2
        · exact h1.symm
        · exact absurd h2 hx
      simp [lastIdxAux, lastIdxAux_of_not_mem c xs hx, hxc]

theorem lastIdxAux_append_sep (c : Char) (d i : List Char) (h : c ∉ i) :
    lastIdxAux c (d ++ c :: i) = (d.length : Int) := by
  induction d with
  | nil => simp [lastIdxAux, lastIdxAux_of_not_mem c i h]
  | cons x xs ih =>
    have hmem : c ∈ xs ++ c :: i := by simp
    have hnn : 0 ≤ lastIdxAux c (xs ++ c :: i) :=
      lastIdxAux_nonneg_of_mem c _ hmem
    simp only [List.cons_append, lastIdxAux, ih]
    have : ¬((xs.length : Int) = -1) := by omega
    simp [this]
    omega

theorem jsSliceIndex_zero (len : Nat) : jsSliceIndex len 0 = 0 := by
  unfold jsSliceIndex
  rw [if_neg (by omega)]
  simp

theorem jsSliceIndex_natCast (len n : Nat) :
    jsSliceIndex len (n : Int) = min n len := by
  unfold jsSliceIndex
  rw [if_neg (by omega)]
  simp

theorem jsSlice_zero_take (s : List Char) (n : Nat) :
    jsSlice s 0 (n : Int) = s.take n := by
  unfold jsSlice
  rw [jsSliceIndex_zero, jsSliceIndex_natCast, List.drop_zero]
  rcases Nat.le_total n s.length with h | h
  · rw [Nat.min_eq_left h]
  · rw [Nat.min_eq_right h, List.take_length, List.take_of_length_le h]

theorem jsSliceFrom_natCast (s : List Char) (n : Nat) :
    jsSliceFrom s (n : Int) = s.drop n := by
  unfold jsSliceFrom jsSlice
  rw [jsSliceIndex_natCast, jsSliceIndex_natCast, Nat.min_self,
    List.take_length]
  rcases Nat.le_total n s.length with h | h
  · rw [Nat.min_eq_left h]
  · rw [Nat.min_eq_right h, List.drop_length, List.drop_eq_nil_of_le h]

/-- C5: for an identifier `d ++ "-" ++ i` whose suffix `i` contains no
separator, `handleSearchPanelClick` parses the document id `d` and the
element index `i` by locating the last separator, and the parsed index is
the one recorded by the `setSearchedIndex` dispatch, the first action of
the handler. -/
theorem parseSearchId_composite (d i curDoc : List Char) (h : '-' ∉ i) :
    parseSearchId (d ++ '-' :: i) = (d, i) ∧
    (handleSearchPanelClickTrace (d ++ '-' :: i) curDoc).get? 0 =
      some (.setSearchedIndex i) := by
  have hlast : jsLastIndexOf (d ++ '-' :: i) '-' = (d.length : Int) :=
    lastIdxAux_append_sep '-' d i h
  have hparse : parseSearchId (d ++ '-' :: i) = (d, i) := by
    unfold parseSearchId
    rw [hlast]
    have h1 : jsSlice (d ++ '-' :: i) 0 (d.length : Int) = d := by
      rw [jsSlice_zero_take]
      exact List.take_left d ('-' :: i)
    have h2 : jsSliceFrom (d ++ '-' :: i) ((d.length : Int) + 1) = i := by
      have hc : ((d.length : Int) + 1) = ((d.length + 1 : Nat) : Int) := by
        push_cast
        ring
      rw [hc, jsSliceFrom_natCast]
      have ha : d ++ '-' :: i = (d ++ ['-']) ++ i := by simp
      have hl : d.length + 1 = (d ++ ['-']).length := by simp
      rw [ha, hl, List.drop_left]
    rw [h1, h2]
  refine ⟨hparse, ?_⟩
  simp [handleSearchPanelClickTrace, hparse]

theorem parseSearchId_composite_witness :
    parseSearchId (['d', 'o', 'c', '1'] ++ '-' :: ['3']) =
      (['d', 'o', 'c', '1'], ['3']) ∧
    (handleSearchPanelClickTrace (['d', 'o', 'c', '1'] ++ '-' :: ['3'])
        exCurDoc).get? 0 =
      some (.setSearchedIndex ['3']) :=
  parseSearchId_composite ['d', 'o', 'c', '1'] ['3'] exCurDoc (by decide)

/-- C10: the identifier parsing of `handleSearchPanelClick` is total; on an
identifier without separator `lastIndexOf` yields `-1`, so the parsed
document id is the identifier without its final character and the parsed
index is the entire identifier. -/
theorem parseSearchId_no_separator (id : List Char) (h : '-' ∉ id) :
    jsLastIndexOf id '-' = -1 ∧ parseSearchId id = (id.dropLast, id) := by
  have hlast : jsLastIndexOf id '-' = -1 := lastIdxAux_of_not_mem '-' id h
  refine ⟨hlast, ?_⟩
  unfold parseSearchId
  rw [hlast]
  have h1 : jsSlice id 0 (-1) = id.dropLast := by
    unfold jsSlice
    rw [jsSliceIndex_zero, List.drop_zero]
    have he : jsSliceIndex id.length (-1) = id.length - 1 := by
      unfold jsSliceIndex
      rw [if_pos (by omega)]
      omega
    rw [he]
    exact (List.dropLast_eq_take id).symm
  have h2 : jsSliceFrom id (-1 + 1) = id := by
    have hc : ((-1 : Int) + 1) = ((0 : Nat) : Int) := by norm_num
    rw [hc, jsSliceFrom_natCast, List.drop_zero]
  rw [h1, h2]

theorem parseSearchId_no_separator_witness :
    jsLastIndexOf ['a', 'b'] '-' = -1 ∧
    parseSearchId ['a', 'b'] = (['a', 'b'].dropLast, ['a', 'b']) :=
  parseSearchId_no_separator ['a', 'b'] (by decide)

/-- C4: when the clicked search result's document differs from the loaded
document, the trace of `handleSearchPanelClick` contains a fetch
completion, a focused-index update and a set-true of the document-loaded
flag, in that strict order, and no focused-index update occurs before the
fetch completion (the `findIdx` inequalities place the first focus update
strictly after the first fetch completion and the first set-true strictly
after the first focus update). -/
theorem focusedState_after_fetch (id curDoc : List Char)
    (h : (parseSearchId id).1 ≠ curDoc) :
    (handleSearchPanelClickTrace id curDoc).any isFetchComplete = true ∧
    (handleSearchPanelClickTrace id curDoc).any isSetFocused = true ∧
    (handleSearchPanelClickTrace id curDoc).any isSetDocLoadedTrue = true ∧
    (handleSearchPanelClickTrace id curDoc).findIdx isFetchComplete <
      (handleSearchPanelClickTrace id curDoc).findIdx isSetFocused ∧
    (handleSearchPanelClickTrace id curDoc).findIdx isSetFocused <
      (handleSearchPanelClickTrace id curDoc).findIdx isSetDocLoadedTrue ∧
    ((handleSearchPanelClickTrace id curDoc).take
        ((handleSearchPanelClickTrace id curDoc).findIdx isFetchComplete)).all
      (fun e => !(isSetFocused e)) = true := by
  simp [handleSearchPanelClickTrace, h, isFetchComplete, isSetFocused,
    isSetDocLoadedTrue, List.findIdx_cons]

theorem focusedState_after_fetch_witness :
    (handleSearchPanelClickTrace exSearchId exCurDoc).any isFetchComplete =
      true ∧
    (handleSearchPanelClickTrace exSearchId exCurDoc).any isSetFocused =
      true ∧
    (handleSearchPanelClickTrace exSearchId exCurDoc).any isSetDocLoadedTrue =
      true ∧
    (handleSearchPanelClickTrace exSearchId exCurDoc).findIdx isFetchComplete <
      (handleSearchPanelClickTrace exSearchId exCurDoc).findIdx isSetFocused ∧
    (handleSearchPanelClickTrace exSearchId exCurDoc).findIdx isSetFocused <
      (handleSearchPanelClickTrace exSearchId exCurDoc).findIdx
        isSetDocLoadedTrue ∧
    ((handleSearchPanelClickTrace exSearchId exCurDoc).take
        ((handleSearchPanelClickTrace exSearchId exCurDoc).findIdx
          isFetchComplete)).all
      (fun e => !(isSetFocused e)) = true :=
  focusedState_after_fetch exSearchId exCurDoc (by decide)

/-- C2 (counterexample): on the concrete click of search result
`doc1-3` while `doc2` is loaded, not every scroll happens after the
document-loaded flag has returned to true: the handler issues an immediate
scroll (trace position 2) before it even clears the flag. -/
theorem searchClick_scroll_before_reload_counterexample :
    ¬ scrollOnlyAfterReload
        (clickThenEffectTrace exInitSearchState exSearchId exCurDoc none) := by
  unfold scrollOnlyAfterReload
  decide

/-- C2 (amended): for a click on a search result of a different document,
starting with the document-loaded flag true, the flag transitions
true→false→true along the click-then-effect trace; no scroll fires while
the flag is false; but besides the effect-armed scroll that fires after the
flag has returned to true (position 8, after the set-true at position 7)
the handler also issues an immediate scroll to element `'L' + index` at
click time (position 2), before the flag is cleared. -/
theorem searchClick_scroll_flag_amended (id curDoc : List Char)
    (cat : Option (List Char)) (st0 : SearchState)
    (hdoc : (parseSearchId id).1 ≠ curDoc) (hload : st0.isDocLoaded = true) :
    docLoadedHistory st0.isDocLoaded
        (clickThenEffectTrace st0 id curDoc cat) =
      [true, true, true, true, false, false, false, false, true, true,
       true] ∧
    noScrollWhileUnloaded st0.isDocLoaded
        (clickThenEffectTrace st0 id curDoc cat) = true ∧
    (clickThenEffectTrace st0 id curDoc cat).get? 2 =
      some (.scroll ('L' :: (parseSearchId id).2)) ∧
    (clickThenEffectTrace st0 id curDoc cat).get? 7 =
      some (.setIsDocLoaded true) ∧
    (clickThenEffectTrace st0 id curDoc cat).get? 8 =
      some (.scroll ('L' :: (parseSearchId id).2)) := by
  rcases cat with _ | c <;>
    simp [clickThenEffectTrace, handleSearchPanelClickTrace, hdoc, replay,
      applyEvent, searchScrollEffect, docLoadedHistory, docLoadedStep,
      noScrollWhileUnloaded, isScroll, hload, List.get?]

theorem searchClick_scroll_flag_amended_witness :
    docLoadedHistory exInitSearchState.isDocLoaded
        (clickThenEffectTrace exInitSearchState exSearchId exCurDoc none) =
      [true, true, true, true, false, false, false, false, true, true,
       true] ∧
    noScrollWhileUnloaded exInitSearchState.isDocLoaded
        (clickThenEffectTrace exInitSearchState exSearchId exCurDoc none) =
      true ∧
    (clickThenEffectTrace exInitSearchState exSearchId exCurDoc none).get? 2 =
      some (.scroll ('L' :: (parseSearchId exSearchId).2)) ∧
    (clickThenEffectTrace exInitSearchState exSearchId exCurDoc none).get? 7 =
      some (.setIsDocLoaded true) ∧
    (clickThenEffectTrace exInitSearchState exSearchId exCurDoc none).get? 8 =
      some (.scroll ('L' :: (parseSearchId exSearchId).2)) :=
  searchClick_scroll_flag_amended exSearchId exCurDoc none exInitSearchState
    (by decide) (by decide)

/-- C9: when the pending scroll is armed and the document-loaded flag is
true, the scroll effect targets element `'L' + focusedIndex` when a
category is selected and `'L' + searchedIndex` when none is, and in both
cases it then disarms the pending-scroll flag. -/
theorem searchScrollEffect_target (f s c : List Char) :
    searchScrollEffect ⟨true, true, f, s⟩ (some c) =
      [.scroll ('L' :: f), .setIsSearchActive false] ∧
    searchScrollEffect ⟨true, true, f, s⟩ none =
      [.scroll ('L' :: s), .setIsSearchActive false] := by
  constructor <;> rfl

/-- C6: the category name validator accepts exactly non-empty names made of
ASCII letters, digits, underscores and spaces; it accepts `test_category`
(enabling the Create control), rejects `!` showing the validation message
with the Create control disabled, and an empty name keeps the Create
control disabled. -/
theorem categoryNameValidator_spec :
    (∀ name : List Char,
      validCategoryName name = true ↔
        name ≠ [] ∧ name.all allowedCategoryNameChar = true) ∧
    validCategoryName tCategoryName = true ∧
    createControlEnabled tCategoryName = true ∧
    validCategoryName ['!'] = false ∧
    createControlEnabled ['!'] = false ∧
    categoryNameError ['!'] = some categoryValidationMessage ∧
    validCategoryName [] = false ∧
    createControlEnabled [] = false := by
  refine ⟨?_, by decide, by decide, by decide, by decide, by decide,
    by decide, by decide⟩
  intro name
  rcases name with _ | ⟨x, xs⟩ <;> simp [validCategoryName]

/-- C7: `handleLoadDoc` takes the notify-only error branch exactly when the
dataset name or the file is missing, issuing no upload; with both present
it uploads and only the completion callback resets the dataset name,
refreshes the dataset list and shows the creation notification, in that
order. -/
theorem handleLoadDoc_branches (datasetName : List Char) (file : Option Unit) :
    (handleLoadDoc datasetName file = [.notify msgFillRequired] ↔
      (datasetName = [] ∨ file = none)) ∧
    ((datasetName ≠ [] ∧ file ≠ none) →
      handleLoadDoc datasetName file =
        [.uploadStart, .uploadComplete, .resetDatasetName, .refreshDatasets,
         .notify msgDatasetCreated]) ∧
    (LoadDocEvent.uploadStart ∈ handleLoadDoc datasetName file ↔
      (datasetName ≠ [] ∧ file ≠ none)) := by
  rcases file with _ | u <;> rcases datasetName with _ | ⟨x, xs⟩ <;>
    simp [handleLoadDoc]

theorem handleLoadDoc_branches_witness :
    handleLoadDoc ['a'] (some ()) =
      [.uploadStart, .uploadComplete, .resetDatasetName, .refreshDatasets,
       .notify msgDatasetCreated] ∧
    handleLoadDoc [] none = [.notify msgFillRequired] :=
  ⟨(handleLoadDoc_branches ['a'] (some ())).2.1 ⟨by decide, by decide⟩,
   (handleLoadDoc_branches [] none).1.mpr (Or.inl rfl)⟩
